import Mathlib

/-!
Shallow embedding of the etrader-lib market-data subsystem
(`src/package/etrader-lib/src/etrade/etrade_market.py` and
`src/package/etrader-lib/src/secure_requester/secure_requester.py`).

Python dictionaries are modelled as insertion-ordered association lists with
unique keys maintained by the insertion operation; Python in-place mutation
plus exceptions is modelled by functions returning the mutated state together
with an optional error (the state at the moment the exception was raised).
Numeric prices are modelled by `Int` (no arithmetic is ever performed on
them, they are opaque payloads).
-/

deriving instance DecidableEq for Except

/-- Python `dict` membership test `k in d` (over string keys). -/
def pyDictContains {α : Type} (d : List (String × α)) (k : String) : Bool :=
  d.any (fun p => p.1 == k)

/-- Python `d[k] = v`: overwrite in place when the key exists, else append. -/
def pyDictSet {α : Type} (d : List (String × α)) (k : String) (v : α) :
    List (String × α) :=
  if pyDictContains d k then
    d.map (fun p => if p.1 == k then (k, v) else p)
  else
    d ++ [(k, v)]

/-- Python `del d[k]`. -/
def pyDictDel {α : Type} (d : List (String × α)) (k : String) :
    List (String × α) :=
  d.filter (fun p => !(p.1 == k))

/-- Python `d.keys()` in insertion order. -/
def pyDictKeys {α : Type} (d : List (String × α)) : List String :=
  d.map Prod.fst

/-- Python `d[k]` as a read (first entry with the key). -/
def pyDictGet {α : Type} (d : List (String × α)) (k : String) : Option α :=
  (d.find? (fun p => p.1 == k)).map Prod.snd

/-- Python truthiness of an optional string argument: `None` and `""` are
falsy, any non-empty string is truthy. -/
def pyTruthyStr : Option String → Bool
  | none => false
  | some s => !(s == "")

/-! ## SecureRequester (secure_requester.py) -/

/-- The `ValueError` raised by `SecureRequester.__init__` when the client key
or client secret is missing (the spec's `ConfigurationError`). -/
inductive SRError
  | configurationError
  deriving Repr, DecidableEq

/-- The state of a constructed `SecureRequester`: the public retry-policy
attributes and the private credential attributes, as assigned in
`SecureRequester.__init__`. -/
structure SecureRequester where
  retries : Int
  backoff_factor : Int
  status_forcelist : List Int
  debug : Bool
  client_key : Option String
  client_secret : Option String
  resource_owner_key : Option String
  resource_owner_secret : Option String
  callback_uri : Option String
  deriving Repr, DecidableEq

/-- `SecureRequester.__init__`: stores the retry policy (defaulting the
status forcelist to `[500, 502, 503, 504]` when `None` is passed), stores the
credentials, then raises iff `client_key is None or client_secret is None`. -/
def SecureRequester.init (client_key client_secret : Option String)
    (resource_owner_key resource_owner_secret callback_uri : Option String)
    (retries backoff_factor : Int) (status_forcelist : Option (List Int))
    (debug : Bool) : Except SRError SecureRequester :=
  let sf : List Int :=
    match status_forcelist with
    | none => [500, 502, 503, 504]
    | some l => l
  if client_key.isNone || client_secret.isNone then
    .error .configurationError
  else
    .ok ⟨retries, backoff_factor, sf, debug, client_key, client_secret,
      resource_owner_key, resource_owner_secret, callback_uri⟩

/-! ## ETradeMarket and SymbolTracker (etrade_market.py) -/

/-- The `ValueError`s raised by `ETradeMarket` and `SymbolTracker` methods,
one constructor per distinct raise site / message. -/
inductive MktError
  | missingDependencies
  | validationEmpty
  | duplicateSymbol (s : String)
  | notTracked (s : String)
  | trackerFull
  | trackerNotFound
  | configuration
  deriving Repr, DecidableEq

/-- The value stored in `symbols_data`: the dict
`{"symbol": symbol, "price": price}`. -/
structure QuoteRecord where
  symbol : String
  price : Option Int
  deriving Repr, DecidableEq

/-- A `SymbolTracker` thread object's own mutable state: its `symbols`
list (seeded with one symbol by `__init__`). -/
structure SymbolTracker where
  symbols : List String
  deriving Repr, DecidableEq

/-- `SymbolTracker.is_tracker_full`: `len(self.symbols) >= 25`. -/
def SymbolTracker.is_tracker_full (t : SymbolTracker) : Bool :=
  decide (t.symbols.length ≥ 25)

/-- `SymbolTracker.add_symbol`: raises when full, else appends. -/
def SymbolTracker.add_symbol (t : SymbolTracker) (symbol : String) :
    Except MktError SymbolTracker :=
  if t.is_tracker_full then .error .trackerFull
  else .ok ⟨t.symbols ++ [symbol]⟩

/-- `SymbolTracker.remove_symbol`: raises when the symbol is not in
`self.symbols`, else removes its first occurrence (`list.remove`). -/
def SymbolTracker.remove_symbol (t : SymbolTracker) (symbol : String) :
    Except MktError SymbolTracker :=
  if !(t.symbols.contains symbol) then .error .trackerNotFound
  else .ok ⟨t.symbols.erase symbol⟩

/-- One entry of the `symbols_tracker` dict: the thread object used as
key (identified by `tid` and carrying its own `symbols` list) together with
the list stored as the dict value — a distinct list object from
`tracker.symbols`, created as `[symbol,]` when the thread is inserted and
never mutated afterwards. -/
structure TrackerEntry where
  tid : Nat
  tracker : SymbolTracker
  dictSyms : List String
  deriving Repr, DecidableEq

/-- The mutable state of an `ETradeMarket` object. -/
structure ETradeMarket where
  secure_requester : SecureRequester
  base_url : String
  symbols_data : List (String × QuoteRecord)
  symbols_tracker : List TrackerEntry
  next_tid : Nat
  deriving Repr, DecidableEq

/-- `ETradeMarket.__init__`. The guard is Python's
`not secure_requester or not client_key and not client_secret and
not resource_owner_key and not resource_owner_secret`, which by operator
precedence is `(not sr) or ((not ck) and (not cs) and (not rok) and
(not ros))`. -/
def ETradeMarket.init (secure_requester : Option SecureRequester)
    (sandbox : Bool)
    (client_key client_secret resource_owner_key resource_owner_secret :
      Option String)
    (retries backoff_factor : Int) (status_forcelist : List Int) :
    Except MktError ETradeMarket :=
  if (!secure_requester.isSome) ||
      ((!pyTruthyStr client_key) && (!pyTruthyStr client_secret) &&
        (!pyTruthyStr resource_owner_key) &&
        (!pyTruthyStr resource_owner_secret)) then
    .error .missingDependencies
  else
    let requester : Except SRError SecureRequester :=
      match secure_requester with
      | none =>
          SecureRequester.init client_key client_secret resource_owner_key
            resource_owner_secret none retries backoff_factor
            (some status_forcelist) false
      | some r => .ok r
    match requester with
    | .error _ => .error .configuration
    | .ok r =>
        let base : String :=
          if sandbox then "https://apisb.etrade.com/v1/market/"
          else "https://api.etrade.com/v1/market/"
        .ok ⟨r, base, [], [], 0⟩

/-- The inner loop of `ETradeMarket.add_symbols`: walk `symbols_tracker` in
insertion order; at the first thread that is not full, call its
`add_symbol` and stop. When every thread is full the loop falls through and
nothing is changed. -/
def addToFirstAvailable : List TrackerEntry → String →
    Except MktError (List TrackerEntry)
  | [], _ => .ok []
  | e :: rest, symbol =>
    if e.tracker.is_tracker_full then
      match addToFirstAvailable rest symbol with
      | .ok rest' => .ok (e :: rest')
      | .error err => .error err
    else
      match e.tracker.add_symbol symbol with
      | .ok t' => .ok ({ e with tracker := t' } :: rest)
      | .error err => .error err

/-- The body of one iteration of `add_symbols`'s `for symbol in symbols`
loop: duplicate check against `symbols_data`; if `symbols_tracker` is
non-empty, add the symbol to the first non-full thread (the dict value is
not touched); otherwise create and start a new thread seeded with the
symbol and insert it with dict value `[symbol,]`; finally insert the
placeholder entry into `symbols_data`. -/
def addOneSymbol (m : ETradeMarket) (symbol : String) :
    ETradeMarket × Option MktError :=
  if pyDictContains m.symbols_data symbol then
    (m, some (.duplicateSymbol symbol))
  else
    let step : ETradeMarket × Option MktError :=
      if m.symbols_tracker.length > 0 then
        match addToFirstAvailable m.symbols_tracker symbol with
        | .ok ts => ({ m with symbols_tracker := ts }, none)
        | .error err => (m, some err)
      else
        let t : SymbolTracker := ⟨[symbol]⟩
        ({ m with
            symbols_tracker := m.symbols_tracker ++ [⟨m.next_tid, t, [symbol]⟩],
            next_tid := m.next_tid + 1 }, none)
    match step with
    | (m', none) =>
        ({ m' with
            symbols_data := pyDictSet m'.symbols_data symbol ⟨symbol, none⟩ },
          none)
    | r => r

/-- The `for symbol in symbols` loop of `add_symbols`; an exception leaves
the state as already mutated by earlier iterations. -/
def addSymbolsLoop (m : ETradeMarket) : List String →
    ETradeMarket × Option MktError
  | [] => (m, none)
  | symbol :: rest =>
    match addOneSymbol m symbol with
    | (m', none) => addSymbolsLoop m' rest
    | r => r

/-- `ETradeMarket.add_symbols`. -/
def ETradeMarket.add_symbols (m : ETradeMarket) (symbols : List String) :
    ETradeMarket × Option MktError :=
  if symbols.length = 0 then (m, some .validationEmpty)
  else addSymbolsLoop m symbols

/-- The inner loop of `remove_symbols`: walk `symbols_tracker` in insertion
order; at the first entry whose dict value contains the symbol, call the
thread's `remove_symbol` (which raises when the symbol is absent from the
thread's own list); when the thread's own list becomes empty, join the
thread and delete it from the dict; then stop. A symbol contained in no
dict value leaves the loop without effect. -/
def removeFromOwner : List TrackerEntry → String →
    Except MktError (List TrackerEntry)
  | [], _ => .ok []
  | e :: rest, symbol =>
    if e.dictSyms.contains symbol then
      match e.tracker.remove_symbol symbol with
      | .ok t' =>
          if t'.symbols.length = 0 then .ok rest
          else .ok ({ e with tracker := t' } :: rest)
      | .error err => .error err
    else
      match removeFromOwner rest symbol with
      | .ok rest' => .ok (e :: rest')
      | .error err => .error err

/-- The body of one iteration of `remove_symbols`'s loop: tracked check,
`del self.symbols_data[symbol]`, then the owner search. An exception from
`remove_symbol` propagates after the `symbols_data` entry is already
deleted, leaving `symbols_tracker` unchanged. -/
def removeOneSymbol (m : ETradeMarket) (symbol : String) :
    ETradeMarket × Option MktError :=
  if !(pyDictContains m.symbols_data symbol) then
    (m, some (.notTracked symbol))
  else
    let m1 := { m with symbols_data := pyDictDel m.symbols_data symbol }
    match removeFromOwner m1.symbols_tracker symbol with
    | .ok ts => ({ m1 with symbols_tracker := ts }, none)
    | .error err => (m1, some err)

/-- The `for symbol in symbols` loop of `remove_symbols`. -/
def removeSymbolsLoop (m : ETradeMarket) : List String →
    ETradeMarket × Option MktError
  | [] => (m, none)
  | symbol :: rest =>
    match removeOneSymbol m symbol with
    | (m', none) => removeSymbolsLoop m' rest
    | r => r

/-- `ETradeMarket.remove_symbols`. -/
def ETradeMarket.remove_symbols (m : ETradeMarket) (symbols : List String) :
    ETradeMarket × Option MktError :=
  if symbols.length = 0 then (m, some .validationEmpty)
  else removeSymbolsLoop m symbols

/-! ## Quote fetching and the polling loop -/

/-- One element of the response's `QuoteResponse.QuoteData` array:
its `symbol` field and its `All.lastTrade` field. -/
structure Quote where
  symbol : String
  lastTrade : Int
  deriving Repr, DecidableEq

/-- The parsed JSON body of a quote response: the
`QuoteResponse.QuoteData` array. -/
structure QuoteResponse where
  quoteData : List Quote
  deriving Repr, DecidableEq

/-- The URL built by `SymbolTracker.get_prices`:
`f"{self.base_url}/quote/{','.join(self.symbols)}.json"`. -/
def quoteUrl (base_url : String) (symbols : List String) : String :=
  base_url ++ "/quote/" ++ String.intercalate "," symbols ++ ".json"

/-- The parse loop of `get_prices`: `prices = {}` then
`prices[quote["symbol"]] = quote["All"]["lastTrade"]` for each quote in
`QuoteResponse.QuoteData`, in order. -/
def parsePrices (resp : QuoteResponse) : List (String × Int) :=
  resp.quoteData.foldl (fun prices q => pyDictSet prices q.symbol q.lastTrade) []

/-- `SymbolTracker.get_prices`, with the HTTP exchange factored out: the
first component is the list of GET requests issued (the source performs a
single `self.secure_requester.get(url)` call), the second is the prices
dict parsed from the given response body. -/
def SymbolTracker.get_prices (base_url : String) (symbols : List String)
    (resp : QuoteResponse) : List String × List (String × Int) :=
  ([quoteUrl base_url symbols], parsePrices resp)

/-- The URL shape asserted by the specification, built from its words:
`{base_url}/market/quote/` followed by the comma-joined symbols and the
suffix `.json`. Used only to compare against `quoteUrl`. -/
def specQuoteUrl (base_url : String) (symbols : List String) : String :=
  base_url ++ "/market/quote/" ++ String.intercalate "," symbols ++ ".json"

/-- How one call to `get_prices` inside `run` can end: an exception from
the transport (`TransportError`), an exception while parsing a malformed
body (the spec's `QuoteParseError`), or a parsed prices dict. -/
inductive FetchError
  | transport
  | parse
  deriving Repr, DecidableEq

/-- One iteration of `SymbolTracker.run`'s `while len(self.symbols) > 0`
loop, with the outcome of `self.get_prices()` supplied as an oracle.
Returns the updated `symbols_data`, whether the loop reaches another
iteration, and the exception (if any) that escaped the loop — `run` has no
exception handler, so an error from `get_prices` propagates and the thread
terminates. On success each fetched price is written into the shared
`symbols_data`. -/
def SymbolTracker.runStep (symbols : List String)
    (symbols_data : List (String × QuoteRecord))
    (fetchResult : Except FetchError (List (String × Int))) :
    List (String × QuoteRecord) × Bool × Option FetchError :=
  if symbols.length > 0 then
    match fetchResult with
    | .error e => (symbols_data, false, some e)
    | .ok prices =>
        (prices.foldl
          (fun d p => pyDictSet d p.1 ⟨p.1, some p.2⟩) symbols_data,
          true, none)
  else (symbols_data, false, none)

/-! ## Concrete sample states -/

/-- A concrete constructed transport, for building concrete market states. -/
def sampleRequester : SecureRequester :=
  ⟨3, 2, [500, 502, 503, 504], false, some "key", some "secret", none, none,
    none⟩

/-- The production base URL assigned by `ETradeMarket.__init__` when
`sandbox` is false. -/
def prodBaseUrl : String := "https://api.etrade.com/v1/market/"

/-- A freshly constructed market tracking nothing. -/
def emptyMarket : ETradeMarket := ⟨sampleRequester, prodBaseUrl, [], [], 0⟩

/-- Twenty-six distinct symbols. -/
def syms26 : List String :=
  ["S01", "S02", "S03", "S04", "S05", "S06", "S07", "S08", "S09", "S10",
   "S11", "S12", "S13", "S14", "S15", "S16", "S17", "S18", "S19", "S20",
   "S21", "S22", "S23", "S24", "S25", "S26"]

/-- The market after `add_symbols(["A"])`. -/
def marketA : ETradeMarket := (ETradeMarket.add_symbols emptyMarket ["A"]).1

/-- The market after `add_symbols(["A", "B"])`: one thread whose own list
is `["A", "B"]` and whose `symbols_tracker` dict value is `["A"]`. -/
def marketAB : ETradeMarket :=
  (ETradeMarket.add_symbols emptyMarket ["A", "B"]).1

/-- `marketAB` after `remove_symbols(["A"])`: the thread's own list is
`["B"]`, so `"B"` is the last symbol of its poller. -/
def marketABminusA : ETradeMarket :=
  (ETradeMarket.remove_symbols marketAB ["A"]).1

/-- A market whose price table tracks `"X"` while no poller's dict value
lists it. -/
def orphanMarket : ETradeMarket :=
  ⟨sampleRequester, prodBaseUrl, [("X", ⟨"X", none⟩)], [], 0⟩

/-! ## Claim theorems for the transport constructor -/

/-- C8: `SecureRequester.__init__` fails with `ConfigurationError` exactly
when the client key or the client secret is missing (`None`); otherwise it
succeeds and stores the retry count, backoff factor and retryable status
codes unchanged. -/
theorem secureRequester_init_spec :
    ∀ (ck cs rok ros cb : Option String) (r b : Int) (sf : List Int)
      (d : Bool),
      SecureRequester.init ck cs rok ros cb r b (some sf) d =
        (if ck.isNone || cs.isNone then .error .configurationError
         else .ok ⟨r, b, sf, d, ck, cs, rok, ros, cb⟩) := by
  intro ck cs rok ros cb r b sf d
  cases ck <;> cases cs <;> simp [SecureRequester.init]

/-- C9: the constructor rejects only literally absent (`None`) credentials:
with empty-string client key and client secret it succeeds, and in general it
succeeds exactly when both credentials are `some`. -/
theorem secureRequester_init_accepts_empty_strings :
    (SecureRequester.init (some "") (some "") none none none 3 2 none
        false).isOk = true ∧
    ∀ (ck cs rok ros cb : Option String) (r b : Int)
      (sf : Option (List Int)) (d : Bool),
      (SecureRequester.init ck cs rok ros cb r b sf d).isOk =
        (ck.isSome && cs.isSome) := by
  refine ⟨rfl, ?_⟩
  intro ck cs rok ros cb r b sf d
  cases ck <;> cases cs <;> simp [SecureRequester.init, Except.isOk,
    Except.toBool]

/-! ## Dictionary lemmas -/

/-- Deleting a key removes it from the dict. -/
theorem pyDictContains_del {α : Type} (d : List (String × α)) (k : String) :
    pyDictContains (pyDictDel d k) k = false := by
  simp only [pyDictContains, pyDictDel, List.any_eq_false, List.mem_filter]
  intro p hp
  simpa using hp.2

/-- Reading a key just appended (it was absent before). -/
theorem pyDictGet_append_self {α : Type} (d : List (String × α)) (k : String)
    (v : α) (h : pyDictContains d k = false) :
    pyDictGet (d ++ [(k, v)]) k = some v := by
  induction d with
  | nil => simp [pyDictGet]
  | cons p rest ih =>
    simp only [pyDictContains, List.any_cons, Bool.or_eq_false_iff] at h
    simp only [pyDictGet, List.cons_append, List.find?_cons, h.1]
    exact ih h.2

/-- Reading a key just overwritten in place (it was present before). -/
theorem pyDictGet_map_self {α : Type} (d : List (String × α)) (k : String)
    (v : α) (h : pyDictContains d k = true) :
    pyDictGet (d.map (fun p => if p.1 == k then (k, v) else p)) k =
      some v := by
  induction d with
  | nil => simp [pyDictContains] at h
  | cons p rest ih =>
    rw [List.map_cons]
    by_cases hp : (p.1 == k) = true
    · rw [if_pos hp]
      unfold pyDictGet
      rw [List.find?_cons_of_pos _ (by simp)]
      rfl
    · rw [if_neg hp]
      unfold pyDictGet
      rw [List.find?_cons_of_neg _ (by simpa using hp)]
      have h' : pyDictContains rest k = true := by
        simp only [pyDictContains, List.any_cons] at h
        rcases Bool.or_eq_true_iff.mp h with h1 | h2
        · exact absurd h1 hp
        · exact h2
      exact ih h'

/-- Reading a key after `d[k] = v`. -/
theorem pyDictGet_set_self {α : Type} (d : List (String × α)) (k : String)
    (v : α) : pyDictGet (pyDictSet d k v) k = some v := by
  unfold pyDictSet
  by_cases h : pyDictContains d k = true
  · rw [if_pos h]
    exact pyDictGet_map_self d k v h
  · rw [if_neg h]
    exact pyDictGet_append_self d k v (by simpa using h)

/-- Overwriting a key in place does not change the value read at a
different key. -/
theorem pyDictGet_map_ne {α : Type} (d : List (String × α)) (k k' : String)
    (v : α) (h : k' ≠ k) :
    pyDictGet (d.map (fun p => if p.1 == k then (k, v) else p)) k' =
      pyDictGet d k' := by
  have hk : ((k : String) == k') = false := by
    simpa using fun e => h e.symm
  induction d with
  | nil => rfl
  | cons p rest ih =>
    rw [List.map_cons]
    by_cases hp : (p.1 == k) = true
    · have hpk : p.1 = k := by simpa using hp
      rw [if_pos hp]
      unfold pyDictGet
      rw [List.find?_cons_of_neg _ (by simp [hk]),
        List.find?_cons_of_neg _ (by simp [hpk, hk])]
      exact ih
    · rw [if_neg hp]
      unfold pyDictGet
      by_cases hp' : (p.1 == k') = true
      · simp [List.find?_cons, hp']
      · simp only [List.find?_cons, Bool.not_eq_true] at hp' ⊢
        rw [hp']
        exact ih

/-- Appending a fresh key does not change the value read at a different
key. -/
theorem pyDictGet_append_ne {α : Type} (d : List (String × α))
    (k k' : String) (v : α) (h : k' ≠ k) :
    pyDictGet (d ++ [(k, v)]) k' = pyDictGet d k' := by
  have hk : ((k : String) == k') = false := by
    simpa using fun e => h e.symm
  unfold pyDictGet
  rw [List.find?_append]
  cases hf : List.find? (fun p => p.1 == k') d with
  | some p => simp
  | none => simp [hk]

/-- `d[k] = v` does not change the value read at a different key. -/
theorem pyDictGet_set_ne {α : Type} (d : List (String × α)) (k k' : String)
    (v : α) (h : k' ≠ k) :
    pyDictGet (pyDictSet d k v) k' = pyDictGet d k' := by
  unfold pyDictSet
  by_cases hc : pyDictContains d k = true
  · rw [if_pos hc]
    exact pyDictGet_map_ne d k k' v h
  · rw [if_neg hc]
    exact pyDictGet_append_ne d k k' v h

/-! ## Parse-loop lemmas -/

/-- The parse loop does not touch keys outside the quote array. -/
theorem parseFold_preserve (qs : List Quote) (acc : List (String × Int))
    (k : String) (h : k ∉ qs.map Quote.symbol) :
    pyDictGet
        (qs.foldl (fun prices q => pyDictSet prices q.symbol q.lastTrade)
          acc) k =
      pyDictGet acc k := by
  induction qs generalizing acc with
  | nil => rfl
  | cons q rest ih =>
    rw [List.map_cons, List.mem_cons] at h
    push_neg at h
    rw [List.foldl_cons, ih _ h.2, pyDictGet_set_ne _ _ _ _ h.1]

/-- Each quote of the array ends up in the prices dict, provided the
array's symbols are pairwise distinct. -/
theorem parseFold_get (qs : List Quote) (acc : List (String × Int))
    (h : (qs.map Quote.symbol).Nodup) :
    ∀ q ∈ qs,
      pyDictGet
          (qs.foldl (fun prices q => pyDictSet prices q.symbol q.lastTrade)
            acc) q.symbol =
        some q.lastTrade := by
  induction qs generalizing acc with
  | nil => intro q hq; cases hq
  | cons q0 rest ih =>
    intro q hq
    rw [List.map_cons, List.nodup_cons] at h
    rw [List.foldl_cons]
    rcases List.mem_cons.mp hq with rfl | hmem
    · rw [parseFold_preserve rest _ q.symbol h.1, pyDictGet_set_self]
    · exact ih _ h.2 q hmem

/-! ## remove_symbols lemmas -/

/-- When no dict value of `symbols_tracker` lists the symbol, the owner
search walks the whole dict and changes nothing. -/
theorem removeFromOwner_no_owner (ts : List TrackerEntry) (symbol : String)
    (h : ∀ e ∈ ts, e.dictSyms.contains symbol = false) :
    removeFromOwner ts symbol = .ok ts := by
  induction ts with
  | nil => rfl
  | cons e rest ih =>
    have he := h e (List.mem_cons_self e rest)
    rw [removeFromOwner, he]
    simp only [Bool.false_eq_true, if_false]
    rw [ih (fun x hx => h x (List.mem_cons_of_mem e hx))]

/-! ## Claim theorems for the pool manager -/

/-- C1: evaluation of `ETradeMarket.__init__` at the claim's inputs. A
pre-built transport alone is rejected, a full credential set alone is
rejected, both absent is rejected; construction succeeds only when a
transport and at least one credential are supplied together — the guard's
operator precedence contradicts the constructor's own error message
("You must provide either a SecureRequester object or the required keys
and secrets."). -/
theorem etradeMarket_init_guard_eval :
    ETradeMarket.init (some sampleRequester) false none none none none 3 2
        [500, 502, 503, 504] = .error .missingDependencies ∧
    ETradeMarket.init none false (some "ck") (some "cs") (some "rk")
        (some "rs") 3 2 [500, 502, 503, 504] =
      .error .missingDependencies ∧
    ETradeMarket.init none false none none none none 3 2
        [500, 502, 503, 504] = .error .missingDependencies ∧
    (ETradeMarket.init (some sampleRequester) false (some "ck") none none
        none 3 2 [500, 502, 503, 504]).isOk = true := by
  decide

/-- C2: evaluation of `add_symbols` on 26 distinct symbols from a fresh
market. The call succeeds, yet only one tracker exists afterwards: the
26th symbol is inserted into the price table but no new poller is created
(the new-thread branch runs only when `symbols_tracker` is empty), so the
26th symbol is tracked by no poller. The capacity bound itself holds: no
tracker holds more than 25 symbols. -/
theorem add_symbols_no_new_tracker_when_full :
    (ETradeMarket.add_symbols emptyMarket syms26).2 = none ∧
    (ETradeMarket.add_symbols emptyMarket syms26).1.symbols_tracker.length
      = 1 ∧
    pyDictContains
        (ETradeMarket.add_symbols emptyMarket syms26).1.symbols_data "S26"
      = true ∧
    ((ETradeMarket.add_symbols emptyMarket syms26).1.symbols_tracker.all
      (fun e => !(e.tracker.symbols.contains "S26") &&
        decide (e.tracker.symbols.length ≤ 25))) = true := by
  decide

/-- C3: evaluation of `add_symbols(["A", "B"])` on a fresh market. The
price table holds keys `["A", "B"]` while the `symbols_tracker` dict value
of the single poller is still `["A"]` (the dict value is never updated when
a symbol is routed to an existing thread), so the union of the recorded
symbol sets differs from the price-table key set right after a successful
call. The thread's own list does hold `["A", "B"]`. -/
theorem symbols_tracker_union_diverges_from_price_table :
    (ETradeMarket.add_symbols emptyMarket ["A", "B"]).2 = none ∧
    pyDictKeys
        (ETradeMarket.add_symbols emptyMarket ["A", "B"]).1.symbols_data =
      ["A", "B"] ∧
    (ETradeMarket.add_symbols emptyMarket
        ["A", "B"]).1.symbols_tracker.map TrackerEntry.dictSyms = [["A"]] ∧
    (ETradeMarket.add_symbols emptyMarket
        ["A", "B"]).1.symbols_tracker.map (fun e => e.tracker.symbols) =
      [["A", "B"]] := by
  decide

/-- C4 counterexample: `add_symbols(["B", "A"])` on a market already
tracking `"A"` raises the duplicate-symbol error, but `"B"` — earlier in
the same input list — has already been added, so the state is not left
exactly as it was before the call. -/
theorem add_symbols_duplicate_mutates_state :
    (ETradeMarket.add_symbols marketA ["B", "A"]).2 =
      some (MktError.duplicateSymbol "A") ∧
    (ETradeMarket.add_symbols marketA ["B", "A"]).1 ≠ marketA ∧
    pyDictContains
        (ETradeMarket.add_symbols marketA ["B", "A"]).1.symbols_data "B" =
      true := by
  decide

/-- C4 (amended): when the duplicate is the first symbol processed,
`add_symbols` fails with the duplicate-symbol error and leaves the state
exactly unchanged. -/
theorem add_symbols_first_duplicate_leaves_state_unchanged
    (m : ETradeMarket) (d : String) (rest : List String)
    (h : pyDictContains m.symbols_data d = true) :
    ETradeMarket.add_symbols m (d :: rest) =
      (m, some (MktError.duplicateSymbol d)) := by
  have h1 : addOneSymbol m d = (m, some (MktError.duplicateSymbol d)) := by
    unfold addOneSymbol
    rw [if_pos h]
  rw [ETradeMarket.add_symbols, if_neg (by simp), addSymbolsLoop, h1]

/-- C4 witness: the amended statement at a concrete market. -/
theorem add_symbols_first_duplicate_witness :
    ETradeMarket.add_symbols marketA ("A" :: ["B"]) =
      (marketA, some (MktError.duplicateSymbol "A")) :=
  add_symbols_first_duplicate_leaves_state_unchanged marketA "A" ["B"]
    (by decide)

/-- C5: evaluation of the remove path on a two-symbol poller. After
`add_symbols(["A", "B"])` and `remove_symbols(["A"])`, the symbol `"B"` is
the last symbol of its poller (the thread's own list is exactly `["B"]`);
`remove_symbols(["B"])` then returns without error, yet the poller is
still present in `symbols_tracker` (its dict value `["A"]` never listed
`"B"`, so the owner search finds nothing, the thread is never joined, and
it keeps polling `"B"` even though the price table is empty). -/
theorem remove_last_symbol_leaks_tracker :
    marketABminusA.symbols_tracker.map (fun e => e.tracker.symbols) =
      [["B"]] ∧
    (ETradeMarket.remove_symbols marketABminusA ["B"]).2 = none ∧
    (ETradeMarket.remove_symbols
        marketABminusA ["B"]).1.symbols_tracker.length = 1 ∧
    pyDictKeys
        (ETradeMarket.remove_symbols marketABminusA ["B"]).1.symbols_data =
      [] := by
  decide

/-- C6 counterexample: one loop iteration of `SymbolTracker.run` with a
non-empty batch and a failing fetch does not proceed to the next cycle —
the exception escapes (there is no handler in `run`) and the loop
terminates with the batch still non-empty. The price table is left
untouched. -/
theorem failed_fetch_exits_loop :
    SymbolTracker.runStep ["AAPL"] [("AAPL", ⟨"AAPL", some 150⟩)]
        (.error .transport) =
      ([("AAPL", ⟨"AAPL", some 150⟩)], false, some .transport) := by
  decide

/-- C6 (amended): a failed fetch terminates the poller's loop (the
exception propagates out of `run` and the thread dies) even while the
batch is non-empty, but prices already in the table keep their last known
value — the table is not cleared or modified. -/
theorem failed_fetch_terminates_loop_preserving_table
    (symbols : List String) (data : List (String × QuoteRecord))
    (e : FetchError) (h : symbols ≠ []) :
    SymbolTracker.runStep symbols data (.error e) = (data, false, some e) := by
  have hl : 0 < symbols.length := List.length_pos.mpr h
  unfold SymbolTracker.runStep
  rw [if_pos hl]

/-- C6 witness: the amended statement at a concrete batch and table. -/
theorem failed_fetch_terminates_loop_witness :
    SymbolTracker.runStep ["GOOGL"] [] (.error .parse) =
      ([], false, some .parse) :=
  failed_fetch_terminates_loop_preserving_table ["GOOGL"] [] .parse
    (by decide)

/-- C7 counterexample: with the production base URL stored by
`ETradeMarket.__init__` (which ends in `/market/`), the URL that
`get_prices` builds contains `/market//quote/` (a double slash) and is not
of the shape `{base_url}/market/quote/{symbols}.json` asserted by the
claim. -/
theorem quote_url_shape_counterexample :
    quoteUrl prodBaseUrl ["AAPL"] =
      "https://api.etrade.com/v1/market//quote/AAPL.json" ∧
    quoteUrl prodBaseUrl ["AAPL"] ≠ specQuoteUrl prodBaseUrl ["AAPL"] ∧
    (SymbolTracker.get_prices prodBaseUrl ["AAPL"]
        ⟨[⟨"AAPL", 150⟩]⟩).1 ≠ [specQuoteUrl prodBaseUrl ["AAPL"]] := by
  decide

/-- C7 (amended): for every non-empty batch of at most 25 symbols, one
fetch cycle issues exactly one GET, to
`{base_url}/quote/{comma-joined-symbols}.json` (so with the stored base
URL the path contains a double slash), and returns a mapping sending each
symbol of the response's `QuoteResponse.QuoteData` array to its
`All.lastTrade` price. -/
theorem get_prices_single_request_and_parse
    (base_url : String) (symbols : List String) (resp : QuoteResponse)
    (h1 : symbols ≠ []) (h2 : symbols.length ≤ 25)
    (h3 : (resp.quoteData.map Quote.symbol).Nodup) :
    (SymbolTracker.get_prices base_url symbols resp).1 =
      [base_url ++ "/quote/" ++ String.intercalate "," symbols ++ ".json"] ∧
    ∀ q ∈ resp.quoteData,
      pyDictGet (SymbolTracker.get_prices base_url symbols resp).2
          q.symbol =
        some q.lastTrade := by
  constructor
  · rfl
  · intro q hq
    exact parseFold_get resp.quoteData [] h3 q hq

/-- C7 witness: the amended statement at a concrete batch and response. -/
theorem get_prices_single_request_witness :
    (SymbolTracker.get_prices prodBaseUrl ["AAPL", "GOOGL"]
        ⟨[⟨"AAPL", 150⟩, ⟨"GOOGL", 2700⟩]⟩).1 =
      [prodBaseUrl ++ "/quote/" ++
        String.intercalate "," ["AAPL", "GOOGL"] ++ ".json"] ∧
    ∀ q ∈ ([⟨"AAPL", 150⟩, ⟨"GOOGL", 2700⟩] : List Quote),
      pyDictGet (SymbolTracker.get_prices prodBaseUrl ["AAPL", "GOOGL"]
          ⟨[⟨"AAPL", 150⟩, ⟨"GOOGL", 2700⟩]⟩).2 q.symbol =
        some q.lastTrade :=
  get_prices_single_request_and_parse prodBaseUrl ["AAPL", "GOOGL"]
    ⟨[⟨"AAPL", 150⟩, ⟨"GOOGL", 2700⟩]⟩ (by decide) (by decide) (by decide)

/-- Helper: `remove_symbols` on a one-element list is exactly one loop
iteration. -/
theorem removeSymbolsLoop_single (m : ETradeMarket) (s : String) :
    removeSymbolsLoop m [s] = removeOneSymbol m s := by
  cases h : removeOneSymbol m s with
  | mk m' err =>
    cases err with
    | none => simp only [removeSymbolsLoop, h]
    | some e => simp only [removeSymbolsLoop, h]

/-- C10: for every market state and every symbol present in the price
table, `remove_symbols([symbol])` deletes that symbol's `symbols_data`
entry no matter what the poller bookkeeping says, and when no poller's
`symbols_tracker` dict value lists the symbol the call returns without
error. -/
theorem remove_symbols_deletes_price_entry (m : ETradeMarket)
    (symbol : String)
    (h1 : pyDictContains m.symbols_data symbol = true) :
    pyDictContains
        (ETradeMarket.remove_symbols m [symbol]).1.symbols_data symbol =
      false ∧
    ((∀ e ∈ m.symbols_tracker, e.dictSyms.contains symbol = false) →
      (ETradeMarket.remove_symbols m [symbol]).2 = none) := by
  have hloop : ETradeMarket.remove_symbols m [symbol] =
      removeOneSymbol m symbol := by
    unfold ETradeMarket.remove_symbols
    rw [if_neg (by simp)]
    exact removeSymbolsLoop_single m symbol
  rw [hloop]
  unfold removeOneSymbol
  simp only [h1, Bool.not_true, Bool.false_eq_true, if_false]
  constructor
  · cases hro : removeFromOwner m.symbols_tracker symbol with
    | ok ts => simp [hro, pyDictContains_del]
    | error e => simp [hro, pyDictContains_del]
  · intro h2
    rw [removeFromOwner_no_owner m.symbols_tracker symbol h2]

/-- C10 witness: a market tracking `"X"` in its price table with no poller
listing it. -/
theorem remove_symbols_deletes_price_entry_witness :
    pyDictContains
        (ETradeMarket.remove_symbols orphanMarket ["X"]).1.symbols_data "X"
      = false ∧
    (ETradeMarket.remove_symbols orphanMarket ["X"]).2 = none := by
  have h := remove_symbols_deletes_price_entry orphanMarket "X" (by decide)
  exact ⟨h.1, h.2 (by decide)⟩
